import Mathlib

/-!
Verification of the Fazenda São Bento member-portal against its specification.

Each section embeds one page component of the source (TypeScript/React over a
managed backend) as executable Lean definitions: pure computations become Lean
functions, backend tables become lists of rows, and each mutation handler
becomes a function from the old table state (plus the handler's inputs) to the
new table state or to the write request it issues.  Prices are modelled as
rationals, dates as naturals (ISO date strings compare like their numeric
counterparts), and strings as `List Char` where character-level processing
matters.
-/

/- ### Shop page (src/pages/Shop.tsx) -/

namespace Shop

structure Product where
  id : Nat
  name : String
  price : ℚ
  category : String
  deriving DecidableEq

structure CartItem where
  product : Product
  quantity : Nat
  deriving DecidableEq

/-- `calculateTotal` from Shop.tsx: `cart.reduce((sum, item) => sum + (item.product.price * item.quantity), 0)`. -/
def calculateTotal (cart : List CartItem) : ℚ :=
  cart.foldl (fun sum item => sum + item.product.price * (item.quantity : ℚ)) 0

/-- Row inserted into `product_reservations` by `handleCheckout`. -/
structure OrderHeader where
  user_id : String
  pickup_date : String
  total_price : ℚ
  status : String
  deriving DecidableEq

/-- Row inserted into `product_reservation_items` by `handleCheckout`. -/
structure OrderItemInsert where
  reservation_id : Nat
  product_id : Nat
  quantity : Nat
  unit_price : ℚ
  deriving DecidableEq

structure CheckoutWrites where
  header : OrderHeader
  items : List OrderItemInsert
  deriving DecidableEq

/-- `handleCheckout` from Shop.tsx.  Guards: empty cart returns early, an unset
pickup date raises an error message, an unauthenticated user throws.  Otherwise
it inserts the order header (with `total_price` from `calculateTotal` and
status `'pending'`) and then one item row per cart entry, each carrying the
product's current price as `unit_price`.  `newResId` stands for the id the
backend assigns to the inserted header. -/
def handleCheckout (user : Option String) (cart : List CartItem)
    (pickupDate : String) (newResId : Nat) : Option CheckoutWrites :=
  if cart.isEmpty then none
  else if pickupDate = "" then none
  else
    match user with
    | none => none
    | some uid =>
      some
        { header :=
            { user_id := uid
              pickup_date := pickupDate
              total_price := calculateTotal cart
              status := "pending" }
          items := cart.map fun item =>
            { reservation_id := newResId
              product_id := item.product.id
              quantity := item.quantity
              unit_price := item.product.price } }

/-- Sum of `quantity × unit_price` over persisted item rows. -/
def itemsTotal (items : List OrderItemInsert) : ℚ :=
  items.foldl (fun sum it => sum + (it.quantity : ℚ) * it.unit_price) 0

/-- Backend row of table `product_reservations`. -/
structure ShopResRow where
  id : Nat
  user_id : String
  pickup_date : String
  total_price : ℚ
  status : String
  admin_notes : Option String
  deriving DecidableEq

/-- Backend row of table `product_reservation_items`. -/
structure ShopItemRow where
  id : Nat
  reservation_id : Nat
  product_id : Nat
  quantity : Nat
  unit_price : ℚ
  deriving DecidableEq

/-- The two shop-order tables. -/
structure ShopDB where
  product_reservations : List ShopResRow
  product_reservation_items : List ShopItemRow
  deriving DecidableEq

/-- `handleDeleteReservation` from Shop.tsx: after the confirmation prompt it
issues a single `delete` on `product_reservations` filtered by `eq('id', id)`.
No other table is touched. -/
def handleDeleteReservation (db : ShopDB) (rid : Nat) : ShopDB :=
  { db with
    product_reservations := db.product_reservations.filter fun r => r.id != rid }

/-- Concrete shop state: one committed order (id 1, total 25.5) with two item
rows (2 × 10 and 1 × 5.5). -/
def exampleShopDB : ShopDB :=
  { product_reservations :=
      [{ id := 1, user_id := "u1", pickup_date := "2026-01-10",
         total_price := 25.5, status := "pending", admin_notes := none }]
    product_reservation_items :=
      [{ id := 10, reservation_id := 1, product_id := 100, quantity := 2, unit_price := 10 },
       { id := 11, reservation_id := 1, product_id := 101, quantity := 1, unit_price := 5.5 }] }

/-- The spec's checkout scenario cart: `[{price 10.00, qty 2}, {price 5.50, qty 1}]`. -/
def cartScenario : List CartItem :=
  [{ product := { id := 100, name := "Doce", price := 10, category := "Doces" }, quantity := 2 },
   { product := { id := 101, name := "Queijo", price := 5.5, category := "Laticínios" }, quantity := 1 }]

theorem calculateTotal_eq_itemsTotal (cart : List CartItem) (rid : Nat) :
    calculateTotal cart =
      itemsTotal (cart.map fun item =>
        { reservation_id := rid
          product_id := item.product.id
          quantity := item.quantity
          unit_price := item.product.price }) := by
  have h :
      ∀ (l : List CartItem) (a : ℚ),
        l.foldl (fun sum item => sum + item.product.price * (item.quantity : ℚ)) a =
          (l.map fun item =>
            ({ reservation_id := rid
               product_id := item.product.id
               quantity := item.quantity
               unit_price := item.product.price } : OrderItemInsert)).foldl
            (fun sum it => sum + (it.quantity : ℚ) * it.unit_price) a := by
    intro l
    induction l with
    | nil => intro a; rfl
    | cons x xs ih =>
      intro a
      simp only [List.map_cons, List.foldl_cons]
      rw [mul_comm]
      exact ih _
  exact h cart 0

end Shop

/-- Claim C2: for every non-empty cart submitted at checkout (with a pickup
date set and an authenticated user), the `total_price` written on the order
header equals the sum over the persisted item rows of quantity × unit price,
one item row is persisted per cart entry in order, and each item row's
`unit_price` equals its product's price at the moment of submission (with the
cart quantity carried over unchanged). -/
theorem c2_checkout_total_eq_sum (uid pickup : String) (cart : List Shop.CartItem)
    (rid : Nat) (hc : cart ≠ []) (hp : pickup ≠ "") :
    ∃ w, Shop.handleCheckout (some uid) cart pickup rid = some w ∧
      w.header.total_price = Shop.itemsTotal w.items ∧
      w.header.status = "pending" ∧
      w.items.length = cart.length ∧
      List.Forall₂
        (fun (c : Shop.CartItem) (it : Shop.OrderItemInsert) =>
          it.unit_price = c.product.price ∧ it.quantity = c.quantity ∧
            it.product_id = c.product.id)
        cart w.items := by
  have hne : cart.isEmpty = false := by simpa using hc
  refine ⟨⟨⟨uid, pickup, Shop.calculateTotal cart, "pending"⟩,
    cart.map fun item => ⟨rid, item.product.id, item.quantity, item.product.price⟩⟩,
    ?_, ?_, ?_, ?_, ?_⟩
  · simp [Shop.handleCheckout, hne, if_neg hp]
  · simpa using Shop.calculateTotal_eq_itemsTotal cart rid
  · rfl
  · simp
  · simp only [List.forall₂_map_right_iff]
    exact List.forall₂_same.mpr fun x _ => ⟨rfl, rfl, rfl⟩

/-- Witness for C2, the spec's scenario: cart
`[{price 10.00, qty 2}, {price 5.50, qty 1}]` with a pickup date set yields a
header with `total_price = 25.50` and two persisted item rows with matching
unit prices. -/
theorem c2_checkout_total_eq_sum_witness :
    (∃ w, Shop.handleCheckout (some "u1") Shop.cartScenario "2026-01-10" 1 = some w ∧
      w.header.total_price = Shop.itemsTotal w.items ∧
      w.header.status = "pending" ∧
      w.items.length = Shop.cartScenario.length ∧
      List.Forall₂
        (fun (c : Shop.CartItem) (it : Shop.OrderItemInsert) =>
          it.unit_price = c.product.price ∧ it.quantity = c.quantity ∧
            it.product_id = c.product.id)
        Shop.cartScenario w.items) ∧
    (Shop.handleCheckout (some "u1") Shop.cartScenario "2026-01-10" 1).map
        (fun w => w.header.total_price) = some 25.5 ∧
    (Shop.handleCheckout (some "u1") Shop.cartScenario "2026-01-10" 1).map
        (fun w => w.items.length) = some 2 := by
  refine ⟨c2_checkout_total_eq_sum "u1" "2026-01-10" Shop.cartScenario 1
      (by decide) (by decide), ?_, ?_⟩
  · have h : Shop.handleCheckout (some "u1") Shop.cartScenario "2026-01-10" 1 =
        some
          { header :=
              { user_id := "u1", pickup_date := "2026-01-10",
                total_price := 25.5, status := "pending" }
            items :=
              [{ reservation_id := 1, product_id := 100, quantity := 2, unit_price := 10 },
               { reservation_id := 1, product_id := 101, quantity := 1, unit_price := 5.5 }] } := by
      norm_num [Shop.handleCheckout, Shop.calculateTotal, Shop.cartScenario]
      intro hcontra
      exact absurd hcontra (by decide)
    rw [h]; rfl
  · have h : Shop.handleCheckout (some "u1") Shop.cartScenario "2026-01-10" 1 =
        some
          { header :=
              { user_id := "u1", pickup_date := "2026-01-10",
                total_price := 25.5, status := "pending" }
            items :=
              [{ reservation_id := 1, product_id := 100, quantity := 2, unit_price := 10 },
               { reservation_id := 1, product_id := 101, quantity := 1, unit_price := 5.5 }] } := by
      norm_num [Shop.handleCheckout, Shop.calculateTotal, Shop.cartScenario]
      intro hcontra
      exact absurd hcontra (by decide)
    rw [h]; rfl

/-- Claim C1 counterexample: the only admin removal operation on a committed
shop order, `handleDeleteReservation`, deletes the entire order row.  Starting
from a state holding order 1 (total 25.5) with an item of quantity 2 at unit
price 10, after the admin "removes that one item" via this handler no row with
id 1 survives at all, so there is no order whose new `total_price` equals the
old total minus the item's contribution (25.5 − 20 = 5.5), and no removal
reason is appended to any `admin_notes`. -/
theorem c1_counterexample_delete_is_whole_order :
    (∃ r ∈ Shop.exampleShopDB.product_reservations,
        r.id = 1 ∧ r.total_price = 25.5) ∧
    (∃ it ∈ Shop.exampleShopDB.product_reservation_items,
        it.reservation_id = 1 ∧ it.quantity = 2 ∧ it.unit_price = 10) ∧
    ¬ ∃ r ∈ (Shop.handleDeleteReservation Shop.exampleShopDB 1).product_reservations,
        r.id = 1 := by
  refine ⟨⟨⟨1, "u1", "2026-01-10", 25.5, "pending", none⟩, ?_, rfl, rfl⟩,
    ⟨⟨10, 1, 100, 2, 10⟩, ?_, rfl, rfl, rfl⟩, ?_⟩
  · simp [Shop.exampleShopDB]
  · simp [Shop.exampleShopDB]
  · decide

/-- Claim C1 (amended): the admin delete action on a shop order removes the
whole order header — a row survives the operation exactly when it was present
before and its id differs from the deleted one — and the handler leaves the
item table untouched (no per-item removal, no total recomputation, and no
`admin_notes` append occur). -/
theorem c1_amended_delete_removes_whole_order (db : Shop.ShopDB) (rid : Nat) :
    (∀ r, r ∈ (Shop.handleDeleteReservation db rid).product_reservations ↔
        r ∈ db.product_reservations ∧ r.id ≠ rid) ∧
    (Shop.handleDeleteReservation db rid).product_reservation_items =
      db.product_reservation_items := by
  constructor
  · intro r
    simp [Shop.handleDeleteReservation, List.mem_filter]
  · rfl

/- ### Lodging reservations (src/pages/Reservations.tsx, and the richer
variant in src/unnamed/part_000) -/

namespace Lodging

structure GuestDetail where
  name : String
  age : String
  deriving DecidableEq

/-- Record inserted into `reservations` by the richer variant's `handleSubmit`
(src/unnamed/part_000).  `notes` is kept as a character list because the
Visitors page later parses it character by character. -/
structure ReservationInsert where
  user_id : String
  check_in : String
  check_out : String
  num_guests : Nat
  guests_details : List GuestDetail
  accommodation : String
  notes : List Char
  status : String
  deriving DecidableEq

/-- Form state of the richer variant relevant to the insert. -/
structure RichForm where
  visitorName : List Char
  visitorCpf : List Char
  visitorEmail : List Char
  visitorPhone : List Char
  arrivalTime : List Char
  departureTime : List Char
  checkIn : String
  checkOut : String
  numGuests : Nat
  guestsDetails : List GuestDetail
  accommodation : String
  notes : List Char

def dadosHeader : List Char := String.data "\n\n--- Dados do Visitante ---\nNome: "

def cpfLabel : List Char := String.data "\nCPF: "

def emailLabel : List Char := String.data "\nE-mail: "

def telLabel : List Char := String.data "\nTelefone: "

def arrivalLabel : List Char := String.data "\nChegada Prevista: "

def departureLabel : List Char := String.data "\nSaída Prevista: "

/-- The template-literal block appended for visitor submissions in
src/unnamed/part_000, line 189. -/
def visitorNoteSuffix (f : RichForm) : List Char :=
  dadosHeader ++ f.visitorName ++ cpfLabel ++ f.visitorCpf ++
    emailLabel ++ f.visitorEmail ++ telLabel ++ f.visitorPhone ++
    arrivalLabel ++ f.arrivalTime ++ departureLabel ++ f.departureTime

/-- `notes` field of the inserted reservation:
`` `${notes}${isVisitor ? `...` : ''}` ``. -/
def composeNotes (isVisitor : Bool) (f : RichForm) : List Char :=
  f.notes ++ (if isVisitor then visitorNoteSuffix f else [])

/-- `handleSubmit` of the richer lodging variant (src/unnamed/part_000):
throws when unauthenticated, otherwise inserts a single record with
`status: 'pending'` and the caller's id. -/
def handleSubmit (user : Option String) (isVisitor : Bool) (f : RichForm) :
    Except String ReservationInsert :=
  match user with
  | none => Except.error "Você precisa estar logado para fazer uma reserva."
  | some uid =>
    Except.ok
      { user_id := uid
        check_in := f.checkIn
        check_out := f.checkOut
        num_guests := f.numGuests
        guests_details := f.guestsDetails
        accommodation := f.accommodation
        notes := composeNotes isVisitor f
        status := "pending" }

/-- Form state of the simpler variant (src/pages/Reservations.tsx). -/
structure SimpleForm where
  checkIn : String
  checkOut : String
  numGuests : Nat
  guestsDetails : List GuestDetail
  accommodation : String
  notes : String

/-- Record inserted into `reservations` by src/pages/Reservations.tsx. -/
structure SimpleInsert where
  user_id : String
  check_in : String
  check_out : String
  num_guests : Nat
  guests_details : List GuestDetail
  accommodation : String
  notes : String
  status : String
  deriving DecidableEq

/-- `handleSubmit` of the simpler lodging variant (src/pages/Reservations.tsx,
lines 133–181). -/
def handleSubmitSimple (user : Option String) (f : SimpleForm) :
    Except String SimpleInsert :=
  match user with
  | none => Except.error "Você precisa estar logado para fazer uma reserva."
  | some uid =>
    Except.ok
      { user_id := uid
        check_in := f.checkIn
        check_out := f.checkOut
        num_guests := f.numGuests
        guests_details := f.guestsDetails
        accommodation := f.accommodation
        notes := f.notes
        status := "pending" }

/-- Backend row of the `reservations` table as seen by the richer variant's
admin actions. -/
structure LodgingRow where
  id : Nat
  user_id : String
  check_in : String
  check_out : String
  num_guests : Nat
  accommodation : String
  status : String
  admin_notes : Option String
  deriving DecidableEq

/-- The patch `{ status, admin_notes }` sent in the single update request. -/
structure StatusUpdate where
  status : String
  admin_notes : String
  deriving DecidableEq

/-- JavaScript `adminNote || ''`: `null` and the empty string collapse to `''`. -/
def jsOrEmpty : Option String → String
  | none => ""
  | some s => if s = "" then "" else s

/-- `handleUpdateStatus` of the richer lodging variant (src/unnamed/part_000,
lines 99–122).  `adminNote` is the result of the blocking `prompt` (`none`
models a dismissed prompt).  Returns the update request issued (if any)
together with the resulting table state. -/
def handleUpdateStatus (adminNote : Option String) (newStatus : String)
    (rid : Nat) (tbl : List LodgingRow) :
    Option StatusUpdate × List LodgingRow :=
  if newStatus = "rejected" ∧ adminNote = none then (none, tbl)
  else if newStatus = "confirmed" ∧ adminNote = none then (none, tbl)
  else
    let patch : StatusUpdate :=
      { status := newStatus, admin_notes := jsOrEmpty adminNote }
    (some patch,
     tbl.map fun r =>
       if r.id = rid then
         { r with status := patch.status, admin_notes := some patch.admin_notes }
       else r)

/-- A one-row `reservations` table used as concrete witness input. -/
def exampleLodgingTbl : List LodgingRow :=
  [{ id := 7, user_id := "u1", check_in := "2026-02-01", check_out := "2026-02-03",
     num_guests := 2, accommodation := "Casa Grande", status := "pending",
     admin_notes := none }]

end Lodging

/-- Claim C3: every valid lodging reservation submission by an authenticated
user — in the richer variant (src/unnamed/part_000) and in the simpler one
(src/pages/Reservations.tsx) alike — inserts a record whose `status` is
exactly `"pending"` and whose `user_id` equals the submitting identity. -/
theorem c3_lodging_insert_pending_owner (u : String) (isVisitor : Bool)
    (fr : Lodging.RichForm) (fs : Lodging.SimpleForm) :
    ((Lodging.handleSubmit (some u) isVisitor fr).map
        (fun r => (r.status, r.user_id)) = Except.ok ("pending", u)) ∧
    ((Lodging.handleSubmitSimple (some u) fs).map
        (fun r => (r.status, r.user_id)) = Except.ok ("pending", u)) :=
  ⟨rfl, rfl⟩

/-- Claim C10: in the richer lodging variant, for an admin transition to
`confirmed` or `rejected`, a dismissed prompt (`null`) issues no update at all
and leaves the table unchanged, while an entered note (possibly empty) issues a
single update setting both `status` and `admin_notes`. -/
theorem c10_status_update_prompt_guard (s : String) (rid : Nat)
    (tbl : List Lodging.LodgingRow) (hs : s = "confirmed" ∨ s = "rejected") :
    (Lodging.handleUpdateStatus none s rid tbl = (none, tbl)) ∧
    (∀ t, Lodging.handleUpdateStatus (some t) s rid tbl =
      (some { status := s, admin_notes := t },
       tbl.map fun r =>
         if r.id = rid then { r with status := s, admin_notes := some t }
         else r)) := by
  constructor
  · rcases hs with h | h <;> subst h <;> simp [Lodging.handleUpdateStatus]
  · intro t
    have hj : Lodging.jsOrEmpty (some t) = t := by
      by_cases ht : t = "" <;> simp [Lodging.jsOrEmpty, ht]
    rcases hs with h | h <;> subst h <;>
      simp [Lodging.handleUpdateStatus, hj]

/-- Witness for C10 at a concrete input: status `confirmed`, reservation 7,
the one-row example table. -/
theorem c10_status_update_prompt_guard_witness :
    (Lodging.handleUpdateStatus none "confirmed" 7 Lodging.exampleLodgingTbl =
      (none, Lodging.exampleLodgingTbl)) ∧
    (∀ t, Lodging.handleUpdateStatus (some t) "confirmed" 7 Lodging.exampleLodgingTbl =
      (some { status := "confirmed", admin_notes := t },
       Lodging.exampleLodgingTbl.map fun r =>
         if r.id = 7 then { r with status := "confirmed", admin_notes := some t }
         else r)) :=
  c10_status_update_prompt_guard "confirmed" 7 Lodging.exampleLodgingTbl (Or.inl rfl)

/- ### Session gate and page routing (src/App.tsx) -/

namespace App

/-- Columns fetched by `checkUserInfo`: `select('approved, role')`.  The
`approved` column may be null, which the code guards with `=== true`. -/
structure ProfileRow where
  approved : Option Bool
  role : String
  deriving DecidableEq

/-- The three gate flags set by `checkUserInfo`. -/
structure GateFlags where
  isApproved : Bool
  isAdmin : Bool
  isVisitor : Bool
  deriving DecidableEq

def superAdminEmail : String := "admin@familiasaobento.com"

/-- `checkUserInfo` from App.tsx (lines 253–293).  `lookup` is the profile
query outcome: an error (caught branch), an empty row set, or at least one
row.  `prev` is the flag state before the call: in the error branch the
super-admin fallback sets only `isApproved` and `isAdmin`, leaving
`isVisitor` as it was. -/
def checkUserInfo (prev : GateFlags) (email : String)
    (lookup : Except Unit (List ProfileRow)) : GateFlags :=
  let isSuperAdmin : Bool := email == superAdminEmail
  match lookup with
  | Except.ok rows =>
    match rows with
    | row :: _ =>
      { isApproved := (row.approved == some true) || isSuperAdmin
        isAdmin := (row.role == "admin") || isSuperAdmin
        isVisitor := row.role == "visitor" }
    | [] =>
      { isApproved := isSuperAdmin, isAdmin := isSuperAdmin, isVisitor := false }
  | Except.error _ =>
    if isSuperAdmin then { prev with isApproved := true, isAdmin := true }
    else { isApproved := false, isAdmin := false, isVisitor := false }

/-- The `Page` enum (src/unnamed/part_006). -/
inductive Page where
  | login
  | home
  | reservations
  | gallery
  | finance
  | events
  | documents
  | profile
  | contact
  | shop
  | visitors
  | adminUsers
  deriving DecidableEq

/-- Which page component `renderContent` mounts, with the props it passes. -/
inductive Rendered where
  | home (isAdmin isVisitor : Bool)
  | finance
  | reservations (isAdmin isVisitor : Bool)
  | events (isAdmin : Bool)
  | documents
  | gallery
  | members
  | profile
  | contact (isAdmin : Bool)
  | shop (isAdmin : Bool)
  | visitors
  | adminUsers
  deriving DecidableEq

/-- `renderContent` from App.tsx (lines 316–343). -/
def renderContent (isAdmin isVisitor : Bool) : Page → Rendered
  | Page.home => Rendered.home isAdmin isVisitor
  | Page.finance =>
      if isVisitor then Rendered.home isAdmin isVisitor else Rendered.finance
  | Page.reservations => Rendered.reservations isAdmin isVisitor
  | Page.events =>
      if isVisitor then Rendered.home isAdmin isVisitor else Rendered.events isAdmin
  | Page.documents =>
      if isVisitor then Rendered.home isAdmin isVisitor else Rendered.documents
  | Page.gallery =>
      if isVisitor then Rendered.home isAdmin isVisitor else Rendered.gallery
  | Page.profile =>
      if isAdmin then Rendered.members
      else if isVisitor then Rendered.home isAdmin isVisitor
      else Rendered.profile
  | Page.contact =>
      if isVisitor then Rendered.home isAdmin isVisitor else Rendered.contact isAdmin
  | Page.shop =>
      if isVisitor then Rendered.home isAdmin isVisitor else Rendered.shop isAdmin
  | Page.visitors =>
      if isAdmin then Rendered.visitors else Rendered.home isAdmin isVisitor
  | Page.adminUsers =>
      if isAdmin then Rendered.adminUsers else Rendered.home isAdmin isVisitor
  | Page.login => Rendered.home isAdmin isVisitor

end App

/-- Claim C6: whenever the account email is the hardcoded super-admin email,
`checkUserInfo` sets `isApproved` and `isAdmin` to true for every lookup
outcome (rows present, no row, or an error); for any other email, both a
missing profile row and a lookup error yield unapproved and non-admin. -/
theorem c6_super_admin_fallback (prev : App.GateFlags)
    (lookup : Except Unit (List App.ProfileRow)) (email : String)
    (h : email ≠ App.superAdminEmail) :
    ((App.checkUserInfo prev App.superAdminEmail lookup).isApproved = true ∧
     (App.checkUserInfo prev App.superAdminEmail lookup).isAdmin = true) ∧
    ((App.checkUserInfo prev email (Except.ok [])).isApproved = false ∧
     (App.checkUserInfo prev email (Except.ok [])).isAdmin = false) ∧
    ((App.checkUserInfo prev email (Except.error ())).isApproved = false ∧
     (App.checkUserInfo prev email (Except.error ())).isAdmin = false) := by
  have hbe : (email == App.superAdminEmail) = false := by
    simpa using h
  refine ⟨?_, ?_, ?_⟩
  · rcases lookup with e | rows
    · simp [App.checkUserInfo]
    · rcases rows with _ | ⟨row, rest⟩ <;> simp [App.checkUserInfo]
  · simp [App.checkUserInfo, hbe]
  · simp [App.checkUserInfo, hbe]

/-- Witness for C6 at a concrete non-admin email and an empty lookup. -/
theorem c6_super_admin_fallback_witness :
    ((App.checkUserInfo ⟨false, false, false⟩ App.superAdminEmail
        (Except.ok [])).isApproved = true ∧
     (App.checkUserInfo ⟨false, false, false⟩ App.superAdminEmail
        (Except.ok [])).isAdmin = true) ∧
    ((App.checkUserInfo ⟨false, false, false⟩ "maria@example.com"
        (Except.ok [])).isApproved = false ∧
     (App.checkUserInfo ⟨false, false, false⟩ "maria@example.com"
        (Except.ok [])).isAdmin = false) ∧
    ((App.checkUserInfo ⟨false, false, false⟩ "maria@example.com"
        (Except.error ())).isApproved = false ∧
     (App.checkUserInfo ⟨false, false, false⟩ "maria@example.com"
        (Except.error ())).isAdmin = false) :=
  c6_super_admin_fallback ⟨false, false, false⟩ (Except.ok [])
    "maria@example.com" (by decide)

/-- Claim C4 counterexample: a signed-in visitor selecting Shop does NOT get
the Shop page — `renderContent` renders the Home view for `Page.shop` when
`isVisitor` is set (src/App.tsx line 334–335), contradicting the claim that a
visitor can access Shop. -/
theorem c4_counterexample_visitor_shop_renders_home :
    App.renderContent false true App.Page.shop = App.Rendered.home false true ∧
    App.renderContent false true App.Page.shop ≠ App.Rendered.shop false := by
  constructor <;> decide

/-- Claim C4 (amended): for a signed-in visitor, selecting Events, Documents,
Gallery, Finance, Profile, Contact — or Shop — renders the Home view instead of
the requested page; the visitor reaches only Home and Reservations (and the two
admin-only pages also fall back to Home). -/
theorem c4_amended_visitor_routing :
    App.renderContent false true App.Page.events = App.Rendered.home false true ∧
    App.renderContent false true App.Page.documents = App.Rendered.home false true ∧
    App.renderContent false true App.Page.gallery = App.Rendered.home false true ∧
    App.renderContent false true App.Page.finance = App.Rendered.home false true ∧
    App.renderContent false true App.Page.profile = App.Rendered.home false true ∧
    App.renderContent false true App.Page.contact = App.Rendered.home false true ∧
    App.renderContent false true App.Page.shop = App.Rendered.home false true ∧
    App.renderContent false true App.Page.visitors = App.Rendered.home false true ∧
    App.renderContent false true App.Page.adminUsers = App.Rendered.home false true ∧
    App.renderContent false true App.Page.home = App.Rendered.home false true ∧
    App.renderContent false true App.Page.reservations =
      App.Rendered.reservations false true := by
  refine ⟨?_, ?_, ?_, ?_, ?_, ?_, ?_, ?_, ?_, ?_, ?_⟩ <;> decide

/- ### Events page (src/pages/Events.tsx, and the older variant in
src/unnamed/part_001) -/

namespace Events

/-- An `events` row.  ISO date strings compare lexicographically exactly as
dates do, so dates are modelled as naturals. -/
structure EventRow where
  id : Nat
  title : String
  start_date : Nat
  end_date : Option Nat
  deriving DecidableEq

/-- The PostgREST filter of `fetchEvents`:
`or(end_date.gte.today, and(end_date.is.null, start_date.gte.today))`.
A comparison against a null column is false. -/
def visibleToday (today : Nat) (e : EventRow) : Bool :=
  match e.end_date with
  | some d => today ≤ d
  | none => today ≤ e.start_date

/-- `fetchEvents` (identical in src/pages/Events.tsx lines 46–64 and
src/unnamed/part_001 lines 53–71): select rows passing `visibleToday`,
ordered by `start_date` ascending. -/
def fetchEvents (today : Nat) (tbl : List EventRow) : List EventRow :=
  (tbl.filter (visibleToday today)).mergeSort
    (fun a b => a.start_date ≤ b.start_date)

/-- The asynchronous calls a mount of an Events page issues. -/
inductive EffectCall where
  | fetchEvents
  | checkAdmin
  | cleanupOldEvents
  deriving DecidableEq

/-- Mount effect of src/pages/Events.tsx (lines 33–35): only `fetchEvents()`
is invoked; `cleanupOldEvents` is defined (lines 37–44) but never called. -/
def mountEffect : List EffectCall := [EffectCall.fetchEvents]

/-- Mount effect of the older variant src/unnamed/part_001 (lines 25–30):
`fetchEvents()`, `checkAdmin()` and `cleanupOldEvents()`. -/
def mountEffectLegacy : List EffectCall :=
  [EffectCall.fetchEvents, EffectCall.checkAdmin, EffectCall.cleanupOldEvents]

end Events

/-- Claim C5: the Events list fetch keeps exactly the rows whose `end_date`
(when present) is today or later, or — for rows without an `end_date` — whose
`start_date` is today or later; equivalently it excludes a row iff its
`end_date` is present and strictly before today or it has no `end_date` and
its `start_date` is strictly before today.  The result is ordered by
`start_date` ascending. -/
theorem c5_events_visible_window (today : Nat) (tbl : List Events.EventRow) :
    (∀ e, e ∈ Events.fetchEvents today tbl ↔
      e ∈ tbl ∧
        ¬((∃ d, e.end_date = some d ∧ d < today) ∨
          (e.end_date = none ∧ e.start_date < today))) ∧
    (Events.fetchEvents today tbl).Pairwise
      (fun a b => a.start_date ≤ b.start_date) := by
  constructor
  · intro e
    rw [Events.fetchEvents, List.mem_mergeSort, List.mem_filter]
    constructor
    · rintro ⟨hmem, hvis⟩
      refine ⟨hmem, ?_⟩
      rintro (⟨d, hd, hlt⟩ | ⟨hn, hlt⟩)
      · simp only [Events.visibleToday, hd, decide_eq_true_eq] at hvis
        omega
      · simp only [Events.visibleToday, hn, decide_eq_true_eq] at hvis
        omega
    · rintro ⟨hmem, hnot⟩
      refine ⟨hmem, ?_⟩
      unfold Events.visibleToday
      cases he : e.end_date with
      | some d =>
        simp only [decide_eq_true_eq]
        by_contra hlt
        exact hnot (Or.inl ⟨d, he, by omega⟩)
      | none =>
        simp only [decide_eq_true_eq]
        by_contra hlt
        exact hnot (Or.inr ⟨he, by omega⟩)
  · have := @List.sorted_mergeSort Events.EventRow
      (fun a b => decide (a.start_date ≤ b.start_date))
      (fun a b c hab hbc => by
        simp only [decide_eq_true_eq] at *; omega)
      (fun a b => by
        simp only [Bool.or_eq_true, decide_eq_true_eq]; omega)
      (tbl.filter (Events.visibleToday today))
    rw [Events.fetchEvents]
    exact this.imp fun h => by simpa using h

/-- Claim C9 counterexample: the mount effect of the current Events page
(src/pages/Events.tsx lines 33–35) invokes only the list fetch; the backend
cleanup routine `delete_old_events` is never invoked on mount there. -/
theorem c9_counterexample_cleanup_not_invoked :
    Events.EffectCall.cleanupOldEvents ∉ Events.mountEffect ∧
    Events.EffectCall.fetchEvents ∈ Events.mountEffect := by
  constructor <;> decide

/-- Claim C9 (amended): only the older Events variant
(src/unnamed/part_001) invokes `delete-old-events()` on mount, alongside the
event list fetch; the current Events page (src/pages/Events.tsx) defines the
routine but its mount effect invokes only the fetch. -/
theorem c9_amended_cleanup_only_in_legacy_variant :
    Events.EffectCall.cleanupOldEvents ∈ Events.mountEffectLegacy ∧
    Events.EffectCall.fetchEvents ∈ Events.mountEffectLegacy ∧
    Events.mountEffect = [Events.EffectCall.fetchEvents] := by
  refine ⟨?_, ?_, rfl⟩ <;> decide

/- ### Gallery page with albums (src/unnamed/part_002) -/

namespace Gallery

structure Album where
  id : Nat
  title : String
  deriving DecidableEq

/-- Row of table `gallery`. -/
structure GalleryRow where
  id : Nat
  title : String
  file_path : String
  album_id : Option Nat
  deriving DecidableEq

/-- Backend state touched by the gallery page: the two tables plus the keys
present in the `gallery` storage bucket. -/
structure GalleryState where
  albums : List Album
  gallery : List GalleryRow
  storage : List String
  deriving DecidableEq

/-- Backend requests issued by `handleDeleteAlbum`, in order. -/
inductive Op where
  | storageRemove (paths : List String)
  | deleteAlbumRow (albumId : Nat)
  deriving DecidableEq

/-- The `file_path`s selected by `handleDeleteAlbum`'s first query:
`from('gallery').select('file_path').eq('album_id', album.id)`. -/
def albumPaths (st : GalleryState) (albumId : Nat) : List String :=
  (st.gallery.filter fun r => r.album_id == some albumId).map fun r => r.file_path

/-- `handleDeleteAlbum` from src/unnamed/part_002 (lines 184–206): select the
album's photo paths, remove them from the storage bucket when there are any,
then delete the album row.  No request against the `gallery` table itself is
issued.  Returns the request trace and the resulting state. -/
def handleDeleteAlbum (st : GalleryState) (albumId : Nat) :
    List Op × GalleryState :=
  let paths := albumPaths st albumId
  let trace :=
    (if paths.isEmpty then [] else [Op.storageRemove paths]) ++
      [Op.deleteAlbumRow albumId]
  (trace,
   { st with
     storage := st.storage.filter fun p => !(paths.contains p)
     albums := st.albums.filter fun a => a.id != albumId })

/-- Concrete gallery state: album 1 with one photo row and its stored object. -/
def exampleGalleryState : GalleryState :=
  { albums := [{ id := 1, title := "Festa Junina" }]
    gallery := [{ id := 5, title := "foto", file_path := "uploads/a.jpg", album_id := some 1 }]
    storage := ["uploads/a.jpg"] }

end Gallery

/-- Claim C7 counterexample: deleting album 1 from a state holding one gallery
row with `album_id = 1` removes the album row and the stored object, but the
gallery item row itself survives — the handler never deletes from the
`gallery` table, so the item is not removed "from the item list". -/
theorem c7_counterexample_gallery_rows_survive :
    (∃ r ∈ (Gallery.handleDeleteAlbum Gallery.exampleGalleryState 1).2.gallery,
        r.album_id = some 1) ∧
    (¬ ∃ a ∈ (Gallery.handleDeleteAlbum Gallery.exampleGalleryState 1).2.albums,
        a.id = 1) ∧
    "uploads/a.jpg" ∉ (Gallery.handleDeleteAlbum Gallery.exampleGalleryState 1).2.storage := by
  refine ⟨?_, ?_, ?_⟩ <;> decide

/-- Claim C7 (amended): deleting an album removes all its items' objects from
the backing object store, and that storage removal is issued before the album
row delete (the album-row delete is always the last request, and when the
album has items the trace is exactly storage-removal followed by row delete);
the `gallery` table rows are left untouched by the handler. -/
theorem c7_amended_album_delete_cascades_storage_only
    (st : Gallery.GalleryState) (aid : Nat) :
    ((Gallery.handleDeleteAlbum st aid).2.gallery = st.gallery) ∧
    (∀ p, p ∈ (Gallery.handleDeleteAlbum st aid).2.storage ↔
        p ∈ st.storage ∧ p ∉ Gallery.albumPaths st aid) ∧
    (∀ a, a ∈ (Gallery.handleDeleteAlbum st aid).2.albums ↔
        a ∈ st.albums ∧ a.id ≠ aid) ∧
    ((Gallery.handleDeleteAlbum st aid).1.getLast? =
        some (Gallery.Op.deleteAlbumRow aid)) ∧
    ((Gallery.handleDeleteAlbum st aid).1 =
      (if (Gallery.albumPaths st aid).isEmpty then []
       else [Gallery.Op.storageRemove (Gallery.albumPaths st aid)]) ++
        [Gallery.Op.deleteAlbumRow aid]) := by
  refine ⟨rfl, ?_, ?_, ?_, rfl⟩
  · intro p
    simp [Gallery.handleDeleteAlbum, List.mem_filter]
  · intro a
    simp [Gallery.handleDeleteAlbum, List.mem_filter]
  · by_cases h : (Gallery.albumPaths st aid).isEmpty <;>
      simp [Gallery.handleDeleteAlbum, h]

/- ### Visitors registry (src/pages/Visitors.tsx) — regex extraction of
CPF / phone from reservation notes -/

namespace Visitors

/-- The whitespace class `\s` of the JavaScript regexes, restricted to the
ASCII range that can occur in the strings at hand. -/
def isJsWs (c : Char) : Bool :=
  c == ' ' || c == '\t' || c == '\n' || c == '\r' ||
    c == Char.ofNat 11 || c == Char.ofNat 12

/-- Line terminators, which `.` in a JavaScript regex does not match. -/
def isLineTerm (c : Char) : Bool := c == '\n' || c == '\r'

/-- Case-insensitive character comparison (the `/i` flag). -/
def lowerEq (p c : Char) : Bool := p.toLower == c.toLower

/-- Does the pattern match, case-insensitively, at the start of `s`? -/
def matchCI : List Char → List Char → Bool
  | [], _ => true
  | _ :: _, [] => false
  | p :: ps, c :: cs => lowerEq p c && matchCI ps cs

/-- Match the pattern against `s` until one side runs out: `none` on a
mismatch, `some remainingPattern` when `s` is exhausted first (or `some []` on
a complete match). -/
def chew : List Char → List Char → Option (List Char)
  | ps, [] => some ps
  | [], _ :: _ => some []
  | p :: ps, c :: cs => if lowerEq p c then chew ps cs else none

/-- Leftmost case-insensitive occurrence search, as
`String.prototype.match` performs for `/PAT.../i`: returns the text right
after the matched pattern, or `none`. -/
def searchFrom (pat : List Char) : List Char → Option (List Char)
  | [] => none
  | c :: cs =>
    if matchCI pat (c :: cs) then some ((c :: cs).drop pat.length)
    else searchFrom pat cs

/-- `(searchFrom pat s).isSome`: the pattern occurs somewhere in `s`. -/
def occursCI (pat s : List Char) : Bool := (searchFrom pat s).isSome

/-- Capture group of `/PAT\s*(.*)/i`: after the leftmost occurrence of the
pattern, greedily skip whitespace (which may cross line breaks), then take the
rest of that line. -/
def captureAfter (pat s : List Char) : Option (List Char) :=
  (searchFrom pat s).map fun rest =>
    (rest.dropWhile isJsWs).takeWhile fun c => !(isLineTerm c)

/-- JavaScript `String.prototype.trim`. -/
def trimChars (s : List Char) : List Char :=
  ((s.dropWhile isJsWs).reverse.dropWhile isJsWs).reverse

def cpfPat : List Char := String.data "CPF:"

def telPat : List Char := String.data "Telefone:"

/-- `cpf` field derived in `fetchVisitors` (src/pages/Visitors.tsx lines
81–84): `notes.match(/CPF:\s*(.*)/i)`, trimmed, with `'—'` as fallback. -/
def extractCpf (notes : List Char) : List Char :=
  match captureAfter cpfPat notes with
  | some s => trimChars s
  | none => String.data "—"

/-- `phone` field derived in `fetchVisitors` (src/pages/Visitors.tsx lines
82–85): `notes.match(/Telefone:\s*(.*)/i)`, trimmed, with `'—'` as fallback. -/
def extractPhone (notes : List Char) : List Char :=
  match captureAfter telPat notes with
  | some s => trimChars s
  | none => String.data "—"

/-- The frozen claim's precondition, verbatim reading: no line of the
free-text notes begins with `CPF:` or `Telefone:` (checked up to letter case,
which only strengthens the precondition). -/
def noMarkerLineStart (notes : List Char) : Bool :=
  (notes.splitOn '\n').all fun line =>
    !(matchCI cpfPat line) && !(matchCI telPat line)

/-- Concrete visitor form whose free-text notes mention a CPF mid-line. -/
def counterForm : Lodging.RichForm :=
  { visitorName := String.data "Maria Silva"
    visitorCpf := String.data "111.222.333-44"
    visitorEmail := String.data "maria@example.com"
    visitorPhone := String.data "(11) 99999-0000"
    arrivalTime := String.data "14:00"
    departureTime := String.data "10:00"
    checkIn := "2026-02-01"
    checkOut := "2026-02-03"
    numGuests := 1
    guestsDetails := []
    accommodation := "Casa Grande"
    notes := String.data "documento CPF: 999" }

end Visitors

/-- Claim C8 counterexample: the visitor's free-text notes
`"documento CPF: 999"` contain no line beginning with `CPF:` or `Telefone:`,
yet after note composition the registry's regex extraction returns `"999"`
(the first, mid-line occurrence) instead of the CPF the visitor entered
(`"111.222.333-44"`): the `/CPF:\s*(.*)/i` match is not anchored to line
starts, so the claimed precondition does not make the round-trip hold. -/
theorem c8_counterexample_midline_marker :
    Visitors.noMarkerLineStart Visitors.counterForm.notes = true ∧
    Visitors.extractCpf (Lodging.composeNotes true Visitors.counterForm) =
      String.data "999" ∧
    Visitors.extractCpf (Lodging.composeNotes true Visitors.counterForm) ≠
      Visitors.trimChars Visitors.counterForm.visitorCpf := by
  refine ⟨?_, ?_, ?_⟩ <;> decide

namespace Visitors

/-- A scan that mismatched inside `s` stays a mismatch whatever follows. -/
theorem chew_none_matchCI {pat s : List Char} (b : List Char)
    (h : chew pat s = none) : matchCI pat (s ++ b) = false := by
  induction s generalizing pat with
  | nil => simp [chew] at h
  | cons c cs ih =>
    cases pat with
    | nil => simp [chew] at h
    | cons p ps =>
      by_cases hle : lowerEq p c
      · rw [chew, if_pos hle] at h
        simp [matchCI, hle, ih h]
      · simp [matchCI, hle]

/-- A scan that exhausted `s` with pattern `pr` left continues on the rest. -/
theorem chew_some_matchCI {pat s pr : List Char} (b : List Char)
    (h : chew pat s = some pr) : matchCI pat (s ++ b) = matchCI pr b := by
  induction s generalizing pat with
  | nil =>
    rw [chew] at h
    cases h
    rfl
  | cons c cs ih =>
    cases pat with
    | nil =>
      rw [chew] at h
      cases h
      simp [matchCI]
    | cons p ps =>
      by_cases hle : lowerEq p c
      · rw [chew, if_pos hle] at h
        simp [matchCI, hle, ih h]
      · rw [chew, if_neg hle] at h
        cases h

/-- The leftover pattern of a scan is a suffix of the pattern. -/
theorem chew_some_suffix {pat s pr : List Char} (h : chew pat s = some pr) :
    ∃ t, t ++ pr = pat := by
  induction s generalizing pat with
  | nil =>
    rw [chew] at h
    cases h
    exact ⟨[], rfl⟩
  | cons c cs ih =>
    cases pat with
    | nil =>
      rw [chew] at h
      cases h
      exact ⟨[], rfl⟩
    | cons p ps =>
      by_cases hle : lowerEq p c
      · rw [chew, if_pos hle] at h
        obtain ⟨t, ht⟩ := ih h
        exact ⟨p :: t, by rw [List.cons_append, ht]⟩
      · rw [chew, if_neg hle] at h
        cases h

/-- If the search finds nothing, no position of the string matches. -/
theorem searchFrom_split_none {pat a : List Char}
    (h : searchFrom pat a = none) :
    ∀ s t, t ++ s = a → s ≠ [] → matchCI pat s = false := by
  induction a with
  | nil =>
    intro s t ht hs
    rcases List.append_eq_nil.mp ht with ⟨-, h2⟩
    exact absurd h2 hs
  | cons c cs ih =>
    have hsplit : matchCI pat (c :: cs) = false ∧ searchFrom pat cs = none := by
      by_cases hm : matchCI pat (c :: cs)
      · rw [searchFrom, if_pos hm] at h
        cases h
      · rw [searchFrom, if_neg hm] at h
        exact ⟨by simpa using hm, h⟩
    intro s t ht hs
    cases t with
    | nil => simpa [← ht] using hsplit.1
    | cons t0 ts =>
      have ht2 : ts ++ s = cs := by
        have := congrArg List.tail ht
        simpa using this
      exact ih hsplit.2 s ts ht2 hs

/-- Every nonempty suffix of a segment accepted by `segSafe` mismatches
strictly inside the segment. -/
def segSafe (pat : List Char) : List Char → Bool
  | [] => true
  | c :: cs => (chew pat (c :: cs) == none) && segSafe pat cs

theorem segSafe_split {pat a : List Char} (h : segSafe pat a = true) :
    ∀ s t, t ++ s = a → s ≠ [] → chew pat s = none := by
  induction a with
  | nil =>
    intro s t ht hs
    rcases List.append_eq_nil.mp ht with ⟨-, h2⟩
    exact absurd h2 hs
  | cons c cs ih =>
    rw [segSafe, Bool.and_eq_true, beq_iff_eq] at h
    intro s t ht hs
    cases t with
    | nil => simpa [← ht] using h.1
    | cons t0 ts =>
      have ht2 : ts ++ s = cs := by
        have := congrArg List.tail ht
        simpa using this
      exact ih h.2 s ts ht2 hs

/-- Search over `a ++ b` skips `a` entirely when no position starting inside
`a` can match. -/
theorem searchFrom_append_skip {pat a b : List Char}
    (h : ∀ s t, t ++ s = a → s ≠ [] → matchCI pat (s ++ b) = false) :
    searchFrom pat (a ++ b) = searchFrom pat b := by
  induction a with
  | nil => simp
  | cons c cs ih =>
    have hm : matchCI pat ((c :: cs) ++ b) = false := h (c :: cs) [] rfl (by simp)
    rw [List.cons_append] at hm ⊢
    rw [searchFrom, if_neg (by simp [hm])]
    exact ih fun s t ht hs => h s (c :: t) (by rw [← ht, List.cons_append]) hs

/-- Search skips a marker-free concrete segment. -/
theorem segSafe_skip {pat a b : List Char} (h : segSafe pat a = true) :
    searchFrom pat (a ++ b) = searchFrom pat b :=
  searchFrom_append_skip fun s t ht hs =>
    chew_none_matchCI b (segSafe_split h s t ht hs)

/-- No pattern character can match the first character of `b`. -/
def headBlocked (pat : List Char) : List Char → Bool
  | [] => false
  | c :: _ => pat.all fun p => !(lowerEq p c)

theorem headBlocked_append {pat : List Char} {a b : List Char} (ha : a ≠ []) :
    headBlocked pat (a ++ b) = headBlocked pat a := by
  cases a with
  | nil => exact absurd rfl ha
  | cons c cs => rfl

/-- Search skips an occurrence-free user segment when the following text opens
with a character no pattern character can equal (here, a newline). -/
theorem userSafe_skip {pat a b : List Char}
    (hocc : searchFrom pat a = none) (hb : headBlocked pat b = true) :
    searchFrom pat (a ++ b) = searchFrom pat b := by
  apply searchFrom_append_skip
  intro s t ht hs
  cases hchew : chew pat s with
  | none => exact chew_none_matchCI b hchew
  | some pr =>
    rw [chew_some_matchCI b hchew]
    cases pr with
    | nil =>
      exfalso
      have hms : matchCI pat s = true := by
        have := chew_some_matchCI [] hchew
        simpa [matchCI] using this
      have := searchFrom_split_none hocc s t ht hs
      rw [hms] at this
      cases this
    | cons q pr2 =>
      cases b with
      | nil => simp [headBlocked] at hb
      | cons b0 b1 =>
        obtain ⟨t2, ht2⟩ := chew_some_suffix hchew
        have hq : q ∈ pat := by
          rw [← ht2]
          simp
        have hqb : lowerEq q b0 = false := by
          rw [headBlocked] at hb
          simpa using (List.all_eq_true.mp hb) q hq
        simp [matchCI, hqb]

end Visitors

namespace Visitors

theorem searchFrom_cons_false {pat : List Char} {c : Char} {cs : List Char}
    (h : matchCI pat (c :: cs) = false) :
    searchFrom pat (c :: cs) = searchFrom pat cs := by
  rw [searchFrom, if_neg (by simp [h])]

theorem searchFrom_cons_true {pat : List Char} {c : Char} {cs : List Char}
    (h : matchCI pat (c :: cs) = true) :
    searchFrom pat (c :: cs) = some ((c :: cs).drop pat.length) := by
  rw [searchFrom, if_pos h]

theorem matchCI_head_false {p : Char} {ps : List Char} {c : Char}
    {cs : List Char} (h : lowerEq p c = false) :
    matchCI (p :: ps) (c :: cs) = false := by
  simp [matchCI, h]

/-- `/CPF:/i` first matches the composed `"\nCPF: "` label right after its
newline, leaving the space and everything after it. -/
theorem searchFrom_cpfLabel (tail : List Char) :
    searchFrom cpfPat (Lodging.cpfLabel ++ tail) = some (' ' :: tail) := by
  rw [show cpfPat = ['C', 'P', 'F', ':'] from by decide,
    show Lodging.cpfLabel = ['\n', 'C', 'P', 'F', ':', ' '] from by decide]
  simp only [List.cons_append, List.nil_append]
  rw [searchFrom_cons_false (matchCI_head_false (by decide))]
  rw [searchFrom_cons_true (by simp [matchCI, lowerEq])]
  simp

/-- `/Telefone:/i` first matches the composed `"\nTelefone: "` label right
after its newline, leaving the space and everything after it. -/
theorem searchFrom_telLabel (tail : List Char) :
    searchFrom telPat (Lodging.telLabel ++ tail) = some (' ' :: tail) := by
  rw [show telPat = ['T', 'e', 'l', 'e', 'f', 'o', 'n', 'e', ':'] from by decide,
    show Lodging.telLabel = ['\n', 'T', 'e', 'l', 'e', 'f', 'o', 'n', 'e', ':', ' ']
      from by decide]
  simp only [List.cons_append, List.nil_append]
  rw [searchFrom_cons_false (matchCI_head_false (by decide))]
  rw [searchFrom_cons_true (by simp [matchCI, lowerEq])]
  simp

theorem dropWhile_idem {p : Char → Bool} (l : List Char) :
    (l.dropWhile p).dropWhile p = l.dropWhile p := by
  induction l with
  | nil => rfl
  | cons c cs ih =>
    by_cases hc : p c
    · simp [List.dropWhile_cons, hc, ih]
    · simp [List.dropWhile_cons, hc]

theorem trimChars_dropWhile (s : List Char) :
    trimChars (s.dropWhile isJsWs) = trimChars s := by
  rw [trimChars, trimChars, dropWhile_idem]

theorem takeWhile_all_stop {p : Char → Bool} {a : List Char} {b0 : Char}
    {b : List Char} (ha : ∀ c ∈ a, p c = true) (hb : p b0 = false) :
    (a ++ b0 :: b).takeWhile p = a := by
  induction a with
  | nil => simp [List.takeWhile_cons, hb]
  | cons c cs ih =>
    have hc := ha c (by simp)
    simp only [List.cons_append, List.takeWhile_cons, hc, if_true]
    rw [ih fun x hx => ha x (by simp [hx])]

theorem dropWhile_append_ne {p : Char → Bool} {a b : List Char}
    (h : a.dropWhile p ≠ []) :
    (a ++ b).dropWhile p = a.dropWhile p ++ b := by
  rw [List.dropWhile_append, if_neg (by simpa [List.isEmpty_iff] using h)]

/-- Processing the capture of `/LABEL\s*(.*)/i` on `' ' :: (x ++ '\n' :: t)`
and trimming recovers the trimmed `x`, provided `x` contains no line
terminator and is not pure whitespace. -/
theorem capture_line (x t : List Char)
    (hx_nl : x.all (fun c => !(isLineTerm c)) = true)
    (hx_ne : x.dropWhile isJsWs ≠ []) :
    trimChars (((' ' :: (x ++ '\n' :: t)).dropWhile isJsWs).takeWhile
      fun c => !(isLineTerm c)) = trimChars x := by
  rw [List.dropWhile_cons, if_pos (by decide), dropWhile_append_ne hx_ne]
  rw [takeWhile_all_stop (fun c hc => by
      have hmem : c ∈ x := (List.dropWhile_sublist _).mem hc
      simpa using List.all_eq_true.mp hx_nl c hmem)
    (by decide)]
  exact trimChars_dropWhile x

end Visitors

namespace Visitors

theorem occursCI_eq_false {pat s : List Char} (h : occursCI pat s = false) :
    searchFrom pat s = none := by
  rw [occursCI] at h
  cases hs : searchFrom pat s with
  | none => rfl
  | some r => rw [hs] at h; cases h

/-- The composed visitor note, written out with right-nested appends. -/
theorem composeNotes_visitor_eq (f : Lodging.RichForm) :
    Lodging.composeNotes true f =
      f.notes ++ (Lodging.dadosHeader ++ (f.visitorName ++ (Lodging.cpfLabel ++
        (f.visitorCpf ++ (Lodging.emailLabel ++ (f.visitorEmail ++
          (Lodging.telLabel ++ (f.visitorPhone ++ (Lodging.arrivalLabel ++
            (f.arrivalTime ++ (Lodging.departureLabel ++
              f.departureTime))))))))))) := by
  simp [Lodging.composeNotes, Lodging.visitorNoteSuffix]

/-- Where `/CPF:/i` first matches inside a composed visitor note whose
user-supplied prefix segments are occurrence-free. -/
theorem searchFrom_composed_cpf (f : Lodging.RichForm)
    (hn : searchFrom cpfPat f.notes = none)
    (hm : searchFrom cpfPat f.visitorName = none) :
    searchFrom cpfPat (Lodging.composeNotes true f) =
      some (' ' :: (f.visitorCpf ++ (Lodging.emailLabel ++ (f.visitorEmail ++
        (Lodging.telLabel ++ (f.visitorPhone ++ (Lodging.arrivalLabel ++
          (f.arrivalTime ++ (Lodging.departureLabel ++
            f.departureTime))))))))) := by
  rw [composeNotes_visitor_eq f]
  rw [userSafe_skip hn (by rw [headBlocked_append (by decide)]; decide)]
  rw [segSafe_skip (by decide : segSafe cpfPat Lodging.dadosHeader = true)]
  rw [userSafe_skip hm (by rw [headBlocked_append (by decide)]; decide)]
  exact searchFrom_cpfLabel _

/-- Where `/Telefone:/i` first matches inside a composed visitor note whose
user-supplied prefix segments are occurrence-free. -/
theorem searchFrom_composed_tel (f : Lodging.RichForm)
    (hn : searchFrom telPat f.notes = none)
    (hm : searchFrom telPat f.visitorName = none)
    (hc : searchFrom telPat f.visitorCpf = none)
    (he : searchFrom telPat f.visitorEmail = none) :
    searchFrom telPat (Lodging.composeNotes true f) =
      some (' ' :: (f.visitorPhone ++ (Lodging.arrivalLabel ++
        (f.arrivalTime ++ (Lodging.departureLabel ++ f.departureTime))))) := by
  rw [composeNotes_visitor_eq f]
  rw [userSafe_skip hn (by rw [headBlocked_append (by decide)]; decide)]
  rw [segSafe_skip (by decide : segSafe telPat Lodging.dadosHeader = true)]
  rw [userSafe_skip hm (by rw [headBlocked_append (by decide)]; decide)]
  rw [segSafe_skip (by decide : segSafe telPat Lodging.cpfLabel = true)]
  rw [userSafe_skip hc (by rw [headBlocked_append (by decide)]; decide)]
  rw [segSafe_skip (by decide : segSafe telPat Lodging.emailLabel = true)]
  rw [userSafe_skip he (by rw [headBlocked_append (by decide)]; decide)]
  exact searchFrom_telLabel _

end Visitors

/-- Claim C8 (amended): note composition followed by the registry's regex
extraction is a round-trip — the extracted CPF and phone equal the values the
visitor entered, trimmed — provided the `CPF:`/`Telefone:` markers do not occur
(case-insensitively, at any position, not merely at a line start) in the
user-supplied fields placed before them in the note template (free-text notes
and host name for both; additionally the CPF and e-mail fields for
`Telefone:`), and the entered CPF and phone are single-line and not entirely
whitespace. -/
theorem c8_amended_note_roundtrip (f : Lodging.RichForm)
    (h1 : Visitors.occursCI Visitors.cpfPat f.notes = false)
    (h2 : Visitors.occursCI Visitors.cpfPat f.visitorName = false)
    (h3 : Visitors.occursCI Visitors.telPat f.notes = false)
    (h4 : Visitors.occursCI Visitors.telPat f.visitorName = false)
    (h5 : Visitors.occursCI Visitors.telPat f.visitorCpf = false)
    (h6 : Visitors.occursCI Visitors.telPat f.visitorEmail = false)
    (h7 : f.visitorCpf.all (fun c => !(Visitors.isLineTerm c)) = true)
    (h8 : f.visitorPhone.all (fun c => !(Visitors.isLineTerm c)) = true)
    (h9 : f.visitorCpf.dropWhile Visitors.isJsWs ≠ [])
    (h10 : f.visitorPhone.dropWhile Visitors.isJsWs ≠ []) :
    Visitors.extractCpf (Lodging.composeNotes true f) =
      Visitors.trimChars f.visitorCpf ∧
    Visitors.extractPhone (Lodging.composeNotes true f) =
      Visitors.trimChars f.visitorPhone := by
  constructor
  · have hs := Visitors.searchFrom_composed_cpf f
      (Visitors.occursCI_eq_false h1) (Visitors.occursCI_eq_false h2)
    rw [Visitors.extractCpf, Visitors.captureAfter, hs, Option.map_some']
    rw [show Lodging.emailLabel = '\n' ::
      ['E', '-', 'm', 'a', 'i', 'l', ':', ' '] from by decide]
    rw [List.cons_append]
    exact Visitors.capture_line _ _ h7 h9
  · have hs := Visitors.searchFrom_composed_tel f
      (Visitors.occursCI_eq_false h3) (Visitors.occursCI_eq_false h4)
      (Visitors.occursCI_eq_false h5) (Visitors.occursCI_eq_false h6)
    rw [Visitors.extractPhone, Visitors.captureAfter, hs, Option.map_some']
    rw [show Lodging.arrivalLabel = '\n' ::
      ['C', 'h', 'e', 'g', 'a', 'd', 'a', ' ', 'P', 'r', 'e', 'v', 'i', 's',
        't', 'a', ':', ' '] from by decide]
    rw [List.cons_append]
    exact Visitors.capture_line _ _ h8 h10

/-- Witness for the amended C8 at a concrete clean submission. -/
theorem c8_amended_note_roundtrip_witness :
    Visitors.extractCpf (Lodging.composeNotes true
        { visitorName := String.data "Maria Silva"
          visitorCpf := String.data "111.222.333-44"
          visitorEmail := String.data "maria@example.com"
          visitorPhone := String.data "(11) 99999-0000"
          arrivalTime := String.data "14:00"
          departureTime := String.data "10:00"
          checkIn := "2026-02-01"
          checkOut := "2026-02-03"
          numGuests := 1
          guestsDetails := []
          accommodation := "Casa Grande"
          notes := String.data "gostaria de chegar cedo" }) =
      Visitors.trimChars (String.data "111.222.333-44") ∧
    Visitors.extractPhone (Lodging.composeNotes true
        { visitorName := String.data "Maria Silva"
          visitorCpf := String.data "111.222.333-44"
          visitorEmail := String.data "maria@example.com"
          visitorPhone := String.data "(11) 99999-0000"
          arrivalTime := String.data "14:00"
          departureTime := String.data "10:00"
          checkIn := "2026-02-01"
          checkOut := "2026-02-03"
          numGuests := 1
          guestsDetails := []
          accommodation := "Casa Grande"
          notes := String.data "gostaria de chegar cedo" }) =
      Visitors.trimChars (String.data "(11) 99999-0000") :=
  c8_amended_note_roundtrip _ (by decide) (by decide) (by decide) (by decide)
    (by decide) (by decide) (by decide) (by decide) (by decide) (by decide)
